import Mathlib

/-!
Shallow embedding of the renewal-reminder subsystem of the
subscription-tracker backend (workflow.controllers.js,
subscriptions.controllers.js), together with theorems settling the
specification claims about it.

Timestamps are modelled as integers (milliseconds since epoch), matching
the JavaScript `Date`/dayjs representation.  Storage reads are modelled as
functions from subscription id to `Option Subscription`; the two reads the
workflow performs (the initial fetch and the re-fetch after the pre-window
sleep) are given as two separate store snapshots, reflecting that the
database may change while the workflow sleeps.  Email sends and sleeps are
collected as lists of observable effects.
-/

namespace SubTracker

/-- Milliseconds in one day, the unit dayjs uses for `diff(_, "day")`. -/
def msPerDay : Int := 86400000

/-- dayjs `absFloor`: truncation toward zero, applied to the quotient.
For a nonnegative dividend this is plain integer division; for a negative
one it is the negated division of the absolute value. -/
def jsAbsFloorDiv (x d : Int) : Int :=
  if x < 0 then -((-x) / d) else x / d

/-- dayjs `a.diff(b, "day")`: the millisecond difference truncated toward
zero after dividing by the milliseconds of a day. -/
def jsDiffDays (a b : Int) : Int :=
  jsAbsFloorDiv (a - b) msPerDay

/-- The inline date arithmetic of `sendReminders` (workflow.controllers.js
lines 112-122): `daysUntilRenewal = renewalDate.diff(today, "day")`. -/
def daysUntil (renewalDate now : Int) : Int :=
  jsDiffDays renewalDate now

/-- The inline past-check of `sendReminders`: `renewalDate.isBefore(today)`,
a strict comparison of timestamps. -/
def isPast (renewalDate now : Int) : Bool :=
  renewalDate < now

/-- Owner contact data populated onto a subscription
(`.populate("user", "email username")`). -/
structure UserInfo where
  email : String
  username : String
deriving Repr, DecidableEq

/-- A subscription document, restricted to the fields the workflow logic
reads (subscriptions.models.js). -/
structure Subscription where
  id : Nat
  user : UserInfo
  name : String
  price : Int
  currency : String
  status : String
  renewalDate : Int
deriving Repr, DecidableEq

/-- The argument record of `sendRenewalReminder` as built by the workflow
(one record per reminder email actually sent). -/
structure ReminderEmail where
  email : String
  username : String
  subscriptionName : String
  renewalDate : Int
  price : Int
  currency : String
  daysUntilRenewal : Int
deriving Repr, DecidableEq

/-- `REMINDER_DAYS = [7, 3, 1]` from workflow.controllers.js. -/
def REMINDER_DAYS : List Int := [7, 3, 1]

/-- Builds the email payload the workflow passes to `sendRenewalReminder`
for subscription `s` at `d` days before renewal. -/
def mkReminderEmail (s : Subscription) (d : Int) : ReminderEmail :=
  ⟨s.user.email, s.user.username, s.name, s.renewalDate, s.price, s.currency, d⟩

/-- Observable outcome of one invocation of the `sendReminders` workflow:
the returned `success` flag and `message`, the reminder emails sent (in
order), and the sleeps entered (in seconds, in order). -/
structure RunResult where
  success : Bool
  message : String
  emails : List ReminderEmail
  sleeps : List Int
deriving Repr, DecidableEq

/-- Body of the `sendReminders` workflow handler after the initial fetch
succeeded (workflow.controllers.js lines 104-225).  `store2` is the
database as read when the workflow wakes from the pre-window sleep of
scenario B — the only point at which the code re-reads storage.  `now` is
the timestamp at which `dayjs()` is evaluated. -/
def sendRemindersFetched (store2 : Nat → Option Subscription)
    (subscriptionId : Nat) (now : Int) (subscription : Subscription) : RunResult :=
  if subscription.status ≠ "active" then
      ⟨false, "Subscription is not active", [], []⟩
    else if isPast subscription.renewalDate now then
      ⟨false, "Renewal date has passed", [], []⟩
    else
      let daysUntilRenewal := daysUntil subscription.renewalDate now
      if daysUntilRenewal ≤ REMINDER_DAYS.headD 0 then
        -- SCENARIO A: renewal within 7 days, send a reminder immediately
        let firstEmail := mkReminderEmail subscription daysUntilRenewal
        if daysUntilRenewal > 1 then
          match REMINDER_DAYS.find? (fun day => day < daysUntilRenewal) with
          | some nextReminderDay =>
            -- sleep `daysToWait` days, then send the next reminder from the
            -- ORIGINAL `subscription` object (no re-fetch on this path)
            ⟨true, "Reminder sent for subscription " ++ toString subscriptionId,
             [firstEmail, mkReminderEmail subscription nextReminderDay],
             [(daysUntilRenewal - nextReminderDay) * 24 * 60 * 60]⟩
          | none =>
            ⟨true, "Reminder sent for subscription " ++ toString subscriptionId,
             [firstEmail], []⟩
        else
          ⟨true, "Reminder sent for subscription " ++ toString subscriptionId,
           [firstEmail], []⟩
      else
        -- SCENARIO B: renewal more than 7 days away; sleep to the window,
        -- re-fetch, and send only if still active
        let daysToWait := daysUntilRenewal - REMINDER_DAYS.headD 0
        match store2 subscriptionId with
        | some updatedSubscription =>
          if updatedSubscription.status = "active" then
            ⟨true, "Reminder scheduled for subscription " ++ toString subscriptionId,
             [mkReminderEmail updatedSubscription (REMINDER_DAYS.headD 0)],
             [daysToWait * 24 * 60 * 60]⟩
          else
            ⟨true, "Reminder scheduled for subscription " ++ toString subscriptionId,
             [], [daysToWait * 24 * 60 * 60]⟩
        | none =>
          ⟨true, "Reminder scheduled for subscription " ++ toString subscriptionId,
           [], [daysToWait * 24 * 60 * 60]⟩

/-- The `sendReminders` workflow handler (workflow.controllers.js lines
90-226): fetch the subscription by id from `store`, exit early when it is
absent, otherwise continue with `sendRemindersFetched`. -/
def sendReminders (store store2 : Nat → Option Subscription)
    (subscriptionId : Nat) (now : Int) : RunResult :=
  match store subscriptionId with
  | none => ⟨false, "Subscription not found", [], []⟩
  | some subscription => sendRemindersFetched store2 subscriptionId now subscription

/-- Result value of a successful `scheduleReminderWorkflow` call
(`{ success: true, message: "Reminder workflow scheduled" }`). -/
structure ScheduleOutcome where
  success : Bool
  message : String
deriving Repr, DecidableEq

/-- `scheduleReminderWorkflow` (workflow.controllers.js lines 256-276).
`client sid` models `upstashWorkflowClient.trigger(...)` for subscription
`sid`: `Except.ok ()` when the trigger call succeeds, `Except.error e`
when it throws with message `e` (the catch block rethrows).  On success
the call returns its outcome together with the list of workflow triggers
it issued — always exactly one, for the given subscription: the function
consults no state about existing runs before triggering. -/
def scheduleReminderWorkflow (client : Nat → Except String Unit)
    (subscriptionId : Nat) : Except String (ScheduleOutcome × List Nat) :=
  match client subscriptionId with
  | Except.ok _ => Except.ok (⟨true, "Reminder workflow scheduled"⟩, [subscriptionId])
  | Except.error e => Except.error e

/-- Effect of a `scheduleReminderWorkflow` call on the set of active
workflow runs.  Per the Upstash client semantics documented in the source
(config/upstash.js and the workflow.controllers.js header: each `trigger`
makes Upstash invoke the send-reminders endpoint as a new workflow run),
every trigger issued starts one new run; a failed call starts none. -/
def activeRunsAfterSchedule (activeRuns : List Nat)
    (client : Nat → Except String Unit) (subscriptionId : Nat) : List Nat :=
  match scheduleReminderWorkflow client subscriptionId with
  | Except.ok (_, triggers) => activeRuns ++ triggers
  | Except.error _ => activeRuns

/-- The MongoDB query filter of `processAllSubscriptionReminders`:
`status = "active"` and `renewalDate` between `today` and
`today + REMINDER_DAYS[0]` days, both inclusive. -/
def dueForReminder (now : Int) (s : Subscription) : Bool :=
  s.status = "active" && now ≤ s.renewalDate &&
    s.renewalDate ≤ now + REMINDER_DAYS.headD 0 * msPerDay

/-- One entry of the `results` array built by the reconciliation loop. -/
structure TriggerEntry where
  subscriptionId : Nat
  status : String
  error : Option String
deriving Repr, DecidableEq

/-- HTTP response of `processAllSubscriptionReminders`, extended with the
list of workflow triggers it issued (ids, in order), the observable
side effect of the sweep. -/
structure ProcessAllResponse where
  status : Nat
  success : Bool
  message : String
  results : List TriggerEntry
  triggered : List Nat
deriving Repr, DecidableEq

/-- Loop body of the reconciliation sweep (the `for...of` with inner
try/catch, workflow.controllers.js lines 311-325): a successful
`scheduleReminderWorkflow` appends a `"scheduled"` entry and records the
triggers issued; a throwing one appends a `"failed"` entry with the error
message and issues no trigger. -/
def processStep (client : Nat → Except String Unit)
    (acc : List TriggerEntry × List Nat) (s : Subscription) :
    List TriggerEntry × List Nat :=
  match scheduleReminderWorkflow client s.id with
  | Except.ok (_, triggers) =>
    (acc.1 ++ [⟨s.id, "scheduled", none⟩], acc.2 ++ triggers)
  | Except.error e =>
    (acc.1 ++ [⟨s.id, "failed", some e⟩], acc.2)

/-- `processAllSubscriptionReminders` (workflow.controllers.js lines
290-336): queries the due subscriptions, triggers a workflow for each one
in turn (failures recorded per subscription, not propagated), and responds
200 with the per-subscription results. -/
def processAllSubscriptionReminders (store : List Subscription) (now : Int)
    (client : Nat → Except String Unit) : ProcessAllResponse :=
  let subscriptions := store.filter (dueForReminder now)
  let loop := subscriptions.foldl (processStep client) ([], [])
  let n := subscriptions.length
  ⟨200, true, "Processed " ++ toString n ++ " subscriptions", loop.1, loop.2⟩

/-- HTTP response of `createSubscription`, restricted to the fields the
claims are about. -/
structure CreateSubscriptionResponse where
  status : Nat
  success : Bool
  data : Option Subscription
  error : Option String
deriving Repr, DecidableEq

/-- `createSubscription` (subscriptions.controllers.js):
`authedUser` models `req.user._id` (`none` when unauthenticated);
`createResult` models `Subscription.create(...)` (ok with the persisted
document, or a thrown error, mapped to status 500 here since the model
carries no `statusCode`); `workflowResult` models the
`scheduleReminderWorkflow` call, whose failure is caught, logged, and
discarded — the 201 response is sent regardless. -/
def createSubscription (authedUser : Option Nat)
    (createResult : Except String Subscription)
    (workflowResult : Except String Unit) : CreateSubscriptionResponse :=
  match authedUser with
  | none => ⟨401, false, none, some "User not authenticated"⟩
  | some _ =>
    match createResult with
    | Except.error msg => ⟨500, false, none, some msg⟩
    | Except.ok subscription =>
      match workflowResult with
      | _ => ⟨201, true, some subscription, none⟩

/-! Concrete subscriptions used as counterexample and witness inputs. -/

/-- An active subscription renewing exactly 7 days after time 0. -/
def sub7 : Subscription :=
  ⟨9, ⟨"max@example.com", "max"⟩, "Hulu", 799, "USD", "active", 7 * 86400000⟩

/-- The same subscription after being canceled (as the store would return
it if the user cancels while the workflow sleeps). -/
def sub7canceled : Subscription :=
  { sub7 with status := "canceled" }

/-- An active subscription renewing exactly 10 days after time 0. -/
def sub10 : Subscription :=
  ⟨8, ⟨"pat@example.com", "pat"⟩, "Netflix", 1599, "USD", "active", 10 * 86400000⟩

/-- `sub10` after cancellation. -/
def sub10canceled : Subscription :=
  { sub10 with status := "canceled" }

/-- An active subscription renewing one hour after time 0 (later the same
day: `daysUntilRenewal = 0` but the renewal is not yet past). -/
def subToday : Subscription :=
  ⟨5, ⟨"uma@example.com", "uma"⟩, "Spotify", 999, "USD", "active", 3600000⟩

/-- An active subscription renewing exactly 5 days after time 0. -/
def sub5 : Subscription :=
  ⟨4, ⟨"lee@example.com", "lee"⟩, "Disney", 899, "USD", "active", 5 * 86400000⟩

/-- An active subscription renewing exactly 3 days after time 0. -/
def sub3 : Subscription :=
  ⟨1, ⟨"ana@example.com", "ana"⟩, "Prime", 699, "USD", "active", 3 * 86400000⟩

/-- The `results` entry the reconciliation loop produces for one
subscription: `"scheduled"` when the trigger client succeeds, `"failed"`
with the error message when it throws. -/
def entryFor (client : Nat → Except String Unit) (s : Subscription) : TriggerEntry :=
  match client s.id with
  | Except.ok _ => ⟨s.id, "scheduled", none⟩
  | Except.error e => ⟨s.id, "failed", some e⟩

/-- Whether the trigger client call succeeds for a subscription. -/
def triggerOk (client : Nat → Except String Unit) (s : Subscription) : Bool :=
  match client s.id with
  | Except.ok _ => true
  | Except.error _ => false

/-! Helper lemmas. -/

/-- Unfolding `sendReminders` when the initial fetch returns a document. -/
lemma sendReminders_eq (store store2 : Nat → Option Subscription)
    (sid : Nat) (now : Int) (s : Subscription) (hs : store sid = some s) :
    sendReminders store store2 sid now = sendRemindersFetched store2 sid now s := by
  unfold sendReminders
  rw [hs]

/-- Unfolding `sendReminders` when the initial fetch returns nothing. -/
lemma sendReminders_none (store store2 : Nat → Option Subscription)
    (sid : Nat) (now : Int) (hs : store sid = none) :
    sendReminders store store2 sid now = ⟨false, "Subscription not found", [], []⟩ := by
  unfold sendReminders
  rw [hs]

/-- `find?` over `REMINDER_DAYS` for a target in the (3, 7] range. -/
lemma REMINDER_DAYS_find?_mid (d : Int) (h3 : 3 < d) (h7 : ¬ 7 < d) :
    REMINDER_DAYS.find? (fun day => day < d) = some 3 := by
  simp [REMINDER_DAYS, List.find?, h3, h7]

/-- `find?` over `REMINDER_DAYS` for a target in the (1, 3] range. -/
lemma REMINDER_DAYS_find?_low (d : Int) (h1 : 1 < d) (h3 : ¬ 3 < d) :
    REMINDER_DAYS.find? (fun day => day < d) = some 1 := by
  have h7 : ¬ 7 < d := by omega
  simp [REMINDER_DAYS, List.find?, h1, h3, h7]

/-- The reconciliation loop appends one `results` entry per subscription
and one trigger per successful client call, in order. -/
lemma foldl_processStep (client : Nat → Except String Unit)
    (subs : List Subscription) (acc : List TriggerEntry × List Nat) :
    subs.foldl (processStep client) acc =
      (acc.1 ++ subs.map (entryFor client),
       acc.2 ++ ((subs.filter (triggerOk client)).map (fun s => s.id))) := by
  induction subs generalizing acc with
  | nil => simp
  | cons s rest ih =>
    rw [List.foldl_cons, ih]
    cases h : client s.id with
    | ok u =>
      simp [processStep, scheduleReminderWorkflow, entryFor, triggerOk, h,
        List.filter_cons]
    | error e =>
      simp [processStep, scheduleReminderWorkflow, entryFor, triggerOk, h,
        List.filter_cons]

/-! Claim theorems. -/

/-- Claim C1, behavior of the code at the failing input: an active
subscription entering the workflow exactly 7 days before renewal and
remaining active throughout receives only the 7-day and 3-day reminders —
the run returns after the second send and the 1-day checkpoint is never
reached; a subscription entering 10 days out receives only the single
7-day reminder after the pre-window sleep.  This contradicts the claim
(and the source file's own header flow, which promises sends at 7, 3 and
1 days before renewal with completion after the final 1-day email). -/
theorem C1_two_reminders_at_most :
    ((sendReminders (fun _ => some sub7) (fun _ => some sub7) 9 0).emails.map
      (fun e => e.daysUntilRenewal) = [7, 3]) ∧
    ((sendReminders (fun _ => some sub10) (fun _ => some sub10) 8 0).emails.map
      (fun e => e.daysUntilRenewal) = [7]) := by
  decide

/-- Claim C2, counterexample: a renewal exactly 6.2 days away (535680000 ms)
yields `daysUntil = 6`, not the ceiling `7` the claim states — the code's
`renewalDate.diff(today, "day")` truncates partial days. -/
theorem C2_counterexample :
    daysUntil 535680000 0 = 6 ∧ (6 : Int) ≠ 7 := by
  decide

/-- Claim C2 as amended: for every renewal date strictly later than `now`,
`daysUntil` FLOOR-rounds the duration in days (a partial day is dropped,
so a renewal 6.2 days away yields 6); `isPast` is true iff
`renewalDate < now`. -/
theorem C2_floor_and_isPast (renewalDate now k r : Int)
    (hk : 0 ≤ k) (hr : 0 ≤ r) (hrlt : r < msPerDay)
    (heq : renewalDate = now + k * msPerDay + r) :
    daysUntil renewalDate now = k ∧
    (isPast renewalDate now = true ↔ renewalDate < now) := by
  subst heq
  refine ⟨?_, by simp [isPast]⟩
  unfold daysUntil jsDiffDays jsAbsFloorDiv msPerDay
  unfold msPerDay at hrlt
  rw [if_neg (by omega)]
  omega

/-- Witness for C2's amended theorem at a renewal 6.2 days in the future. -/
theorem C2_floor_and_isPast_witness :
    daysUntil 535680000 0 = 6 ∧
    (isPast 535680000 0 = true ↔ (535680000 : Int) < 0) :=
  C2_floor_and_isPast 535680000 0 6 17280000 (by decide) (by decide) (by decide)
    (by decide)

/-- Claim C3, counterexample: a run entering at exactly 7 days sleeps
4 days between the 7-day and 3-day checkpoints, the subscription is
canceled in the store during that sleep (`store2` returns the canceled
document), and the 3-day reminder is sent anyway — the in-window path
never re-fetches, it reuses the originally fetched document. -/
theorem C3_counterexample :
    (sendReminders (fun _ => some sub7) (fun _ => some sub7canceled) 9 0).sleeps =
      [4 * 24 * 60 * 60] ∧
    (sendReminders (fun _ => some sub7) (fun _ => some sub7canceled) 9 0).emails =
      [mkReminderEmail sub7 7, mkReminderEmail sub7 3] := by
  decide

/-- Claim C3 as amended: only the pre-window sleep (entered when
`daysUntilRenewal > 7`) is followed by a re-fetch; upon waking from it, if
the re-fetched subscription is absent or no longer active, no reminder
email at all is sent and the run returns success.  The sleep between two
in-window checkpoints is not followed by any re-fetch, and the next
reminder is sent from the originally fetched document regardless of
cancellation (see the counterexample). -/
theorem C3_prewindow_refetch_only (store store2 : Nat → Option Subscription)
    (sid : Nat) (now : Int) (s : Subscription)
    (hs : store sid = some s) (hact : s.status = "active")
    (hnp : isPast s.renewalDate now = false)
    (hfar : 7 < daysUntil s.renewalDate now)
    (hgone : store2 sid = none ∨ ∃ u, store2 sid = some u ∧ u.status ≠ "active") :
    (sendReminders store store2 sid now).emails = [] ∧
    (sendReminders store store2 sid now).success = true := by
  rw [sendReminders_eq store store2 sid now s hs]
  unfold sendRemindersFetched
  rw [if_neg (by simp [hact]), if_neg (by simp [hnp])]
  rw [if_neg (by simp only [REMINDER_DAYS, List.headD_cons]; omega)]
  rcases hgone with h2 | ⟨u, h2, hust⟩
  · rw [h2]
    exact ⟨rfl, rfl⟩
  · rw [h2]
    simp only [if_neg hust]
    exact ⟨trivial, trivial⟩

/-- Witness for C3's amended theorem: a subscription 10 days out, canceled
in the store the workflow re-reads after the pre-window sleep. -/
theorem C3_prewindow_refetch_only_witness :
    (sendReminders (fun _ => some sub10) (fun _ => some sub10canceled) 8 0).emails = [] ∧
    (sendReminders (fun _ => some sub10) (fun _ => some sub10canceled) 8 0).success = true :=
  C3_prewindow_refetch_only (fun _ => some sub10) (fun _ => some sub10canceled) 8 0 sub10
    rfl rfl (by decide) (by decide) (Or.inr ⟨sub10canceled, rfl, by decide⟩)

/-- Claim C4, counterexample: an active subscription renewing one hour
after `now` has `daysUntilRenewal = 0`, yet the run sends an immediate
reminder (with `daysUntilRenewal = 0`) rather than treating the renewal
as past — only `renewalDate < now` is classified as past. -/
theorem C4_counterexample :
    daysUntil subToday.renewalDate 0 = 0 ∧
    (sendReminders (fun _ => some subToday) (fun _ => some subToday) 5 0).emails =
      [mkReminderEmail subToday 0] := by
  decide

/-- Claim C4 as amended: a renewal date strictly before `now` (so every
`daysUntilRenewal < 0`) fires no checkpoint and the run terminates with a
skip result; but `daysUntilRenewal = 0` with `renewalDate ≥ now` (renewal
later today) is NOT treated as past: the run sends exactly one immediate
reminder carrying `daysUntilRenewal = 0` and terminates. -/
theorem C4_day_zero_not_past (store store2 : Nat → Option Subscription)
    (sid : Nat) (now : Int) (s : Subscription)
    (hs : store sid = some s) (hact : s.status = "active") :
    (s.renewalDate < now →
      (sendReminders store store2 sid now).emails = [] ∧
      (sendReminders store store2 sid now).success = false) ∧
    (¬ s.renewalDate < now → daysUntil s.renewalDate now = 0 →
      (sendReminders store store2 sid now).emails = [mkReminderEmail s 0]) := by
  rw [sendReminders_eq store store2 sid now s hs]
  constructor
  · intro hlt
    unfold sendRemindersFetched
    rw [if_neg (by simp [hact]), if_pos (by simp [isPast, hlt])]
    exact ⟨rfl, rfl⟩
  · intro hge hd
    unfold sendRemindersFetched
    rw [if_neg (by simp [hact]), if_neg (by simp [isPast, hge])]
    simp only [hd, REMINDER_DAYS, List.headD_cons]
    norm_num

/-- Witness for C4's amended theorem: the renewal one hour ahead. -/
theorem C4_day_zero_not_past_witness :
    (sendReminders (fun _ => some subToday) (fun _ => some subToday) 5 0).emails =
      [mkReminderEmail subToday 0] :=
  (C4_day_zero_not_past (fun _ => some subToday) (fun _ => some subToday) 5 0 subToday
    rfl rfl).2 (by decide) (by decide)

/-- Claim C7: when the fetched subscription is absent or not active, the
run sends no email, enters no sleep, and returns normally (no thrown
error — `sendReminders` is total here) with a skip result: `success =
false` and one of the two skip messages. -/
theorem C7_missing_or_inactive_skips (store store2 : Nat → Option Subscription)
    (sid : Nat) (now : Int)
    (h : store sid = none ∨ ∃ s, store sid = some s ∧ s.status ≠ "active") :
    (sendReminders store store2 sid now).emails = [] ∧
    (sendReminders store store2 sid now).sleeps = [] ∧
    (sendReminders store store2 sid now).success = false ∧
    ((sendReminders store store2 sid now).message = "Subscription not found" ∨
      (sendReminders store store2 sid now).message = "Subscription is not active") := by
  rcases h with h | ⟨s, hs, hst⟩
  · rw [sendReminders_none store store2 sid now h]
    exact ⟨rfl, rfl, rfl, Or.inl rfl⟩
  · rw [sendReminders_eq store store2 sid now s hs]
    unfold sendRemindersFetched
    rw [if_pos hst]
    exact ⟨rfl, rfl, rfl, Or.inr rfl⟩

/-- Witness for C7 at a store that holds no subscription. -/
theorem C7_missing_or_inactive_skips_witness :
    (sendReminders (fun _ => none) (fun _ => none) 1 0).emails = [] ∧
    (sendReminders (fun _ => none) (fun _ => none) 1 0).sleeps = [] ∧
    (sendReminders (fun _ => none) (fun _ => none) 1 0).success = false ∧
    ((sendReminders (fun _ => none) (fun _ => none) 1 0).message =
        "Subscription not found" ∨
      (sendReminders (fun _ => none) (fun _ => none) 1 0).message =
        "Subscription is not active") :=
  C7_missing_or_inactive_skips (fun _ => none) (fun _ => none) 1 0 (Or.inl rfl)

/-- Claim C8: the sleep before the next checkpoint is `daysUntilRenewal`
minus the next due offset: above the window (`d > 7`) the run sleeps
`d − 7` days; inside the window the gap equals `d` minus the largest
offset strictly below `d` (offset 3 when `3 < d ≤ 7`, offset 1 when
`1 < d ≤ 3`), and the second reminder carries exactly that offset. -/
theorem C8_sleep_gap (store store2 : Nat → Option Subscription)
    (sid : Nat) (now : Int) (s : Subscription) (d : Int)
    (hs : store sid = some s) (hact : s.status = "active")
    (hnp : isPast s.renewalDate now = false)
    (hd : daysUntil s.renewalDate now = d) :
    (7 < d → (sendReminders store store2 sid now).sleeps =
      [(d - 7) * 24 * 60 * 60]) ∧
    (3 < d → d ≤ 7 →
      (sendReminders store store2 sid now).sleeps = [(d - 3) * 24 * 60 * 60] ∧
      (sendReminders store store2 sid now).emails =
        [mkReminderEmail s d, mkReminderEmail s 3]) ∧
    (1 < d → d ≤ 3 →
      (sendReminders store store2 sid now).sleeps = [(d - 1) * 24 * 60 * 60] ∧
      (sendReminders store store2 sid now).emails =
        [mkReminderEmail s d, mkReminderEmail s 1]) := by
  rw [sendReminders_eq store store2 sid now s hs]
  unfold sendRemindersFetched
  rw [if_neg (by simp [hact]), if_neg (by simp [hnp])]
  simp only [hd]
  refine ⟨?_, ?_, ?_⟩
  · intro h7
    rw [if_neg (by simp only [REMINDER_DAYS, List.headD_cons]; omega)]
    cases h2 : store2 sid with
    | none => exact rfl
    | some u => by_cases hu : u.status = "active" <;> simp [hu, REMINDER_DAYS]
  · intro h3 h7
    rw [if_pos (by simp only [REMINDER_DAYS, List.headD_cons]; omega),
      if_pos (by omega)]
    rw [REMINDER_DAYS_find?_mid d h3 (by omega)]
    exact ⟨rfl, rfl⟩
  · intro h1 h3
    rw [if_pos (by simp only [REMINDER_DAYS, List.headD_cons]; omega),
      if_pos (by omega)]
    rw [REMINDER_DAYS_find?_low d h1 (by omega)]
    exact ⟨rfl, rfl⟩

/-- Witness for C8 at a subscription 5 days out: a 2-day sleep before the
3-day checkpoint, whose reminder carries offset 3. -/
theorem C8_sleep_gap_witness :
    (sendReminders (fun _ => some sub5) (fun _ => some sub5) 4 0).sleeps =
      [(5 - 3) * 24 * 60 * 60] ∧
    (sendReminders (fun _ => some sub5) (fun _ => some sub5) 4 0).emails =
      [mkReminderEmail sub5 5, mkReminderEmail sub5 3] :=
  (C8_sleep_gap (fun _ => some sub5) (fun _ => some sub5) 4 0 sub5 5
    rfl rfl (by decide) (by decide)).2.1 (by decide) (by decide)

/-- Claim C5, counterexample: the sweep keeps no record of workflow runs —
its output is a function of the subscription store, the clock and the
trigger client alone, so an immediate second invocation with an unchanged
store is the very same application.  With one due subscription (`sub3`,
renewing 3 days out), that second invocation again triggers a workflow for
subscription 1: it starts one new run, not the zero the claim requires. -/
theorem C5_counterexample :
    (processAllSubscriptionReminders [sub3] 0 (fun _ => Except.ok ())).triggered = [1] ∧
    ([1] : List Nat) ≠ [] := by
  decide

/-- Claim C5 as amended: `processAllSubscriptionReminders` triggers a
workflow for every active subscription with `renewalDate` in
`[now, now + 7 days]` whose trigger call succeeds, unconditionally — it
consults no `AlreadyRunning` guard or run store, so re-running it with an
unchanged subscription store issues exactly the same triggers again
(duplicate runs rather than zero new ones). -/
theorem C5_retriggers_all_due (store : List Subscription) (now : Int)
    (client : Nat → Except String Unit) :
    (processAllSubscriptionReminders store now client).triggered =
      ((store.filter (dueForReminder now)).filter (triggerOk client)).map
        (fun s => s.id) := by
  simp [processAllSubscriptionReminders, foldl_processStep]

/-- Claim C6, counterexample: subscription 42 already has an active
workflow run, yet `scheduleReminderWorkflow` succeeds with its normal
"Reminder workflow scheduled" outcome (neither an `AlreadyRunning` failure
nor a no-op) and issues a fresh trigger, leaving two concurrent runs for
subscription 42. -/
theorem C6_counterexample :
    scheduleReminderWorkflow (fun _ => Except.ok ()) 42 =
      Except.ok (⟨true, "Reminder workflow scheduled"⟩, [42]) ∧
    (activeRunsAfterSchedule [42] (fun _ => Except.ok ()) 42).count 42 = 2 :=
  ⟨rfl, rfl⟩

/-- Claim C6 as amended: `scheduleReminderWorkflow` performs no
`AlreadyRunning` check and never no-ops: whenever the Upstash client call
succeeds it reports success and issues exactly one new workflow trigger,
regardless of the existing active runs — so triggering a subscription that
already has a run yields a second concurrent run. -/
theorem C6_no_already_running_guard (activeRuns : List Nat)
    (client : Nat → Except String Unit) (sid : Nat)
    (h : client sid = Except.ok ()) :
    scheduleReminderWorkflow client sid =
      Except.ok (⟨true, "Reminder workflow scheduled"⟩, [sid]) ∧
    activeRunsAfterSchedule activeRuns client sid = activeRuns ++ [sid] := by
  have h1 : scheduleReminderWorkflow client sid =
      Except.ok (⟨true, "Reminder workflow scheduled"⟩, [sid]) := by
    unfold scheduleReminderWorkflow
    rw [h]
  refine ⟨h1, ?_⟩
  unfold activeRunsAfterSchedule
  rw [h1]

/-- Witness for C6's amended theorem: a duplicate trigger for
subscription 42, which already has one active run. -/
theorem C6_no_already_running_guard_witness :
    scheduleReminderWorkflow (fun _ => Except.ok ()) 7 =
      Except.ok (⟨true, "Reminder workflow scheduled"⟩, [7]) ∧
    activeRunsAfterSchedule [7] (fun _ => Except.ok ()) 7 = [7] ++ [7] :=
  C6_no_already_running_guard [7] (fun _ => Except.ok ()) 7 rfl

/-- Claim C9: once the subscription document is persisted for an
authenticated user, `createSubscription` responds 201 with the created
subscription for every outcome of the reminder-workflow trigger — the
workflow error is caught inside the handler and never fails or rolls back
the creation. -/
theorem C9_creation_survives_workflow_failure (u : Nat) (sub : Subscription)
    (workflowResult : Except String Unit) :
    createSubscription (some u) (Except.ok sub) workflowResult =
      ⟨201, true, some sub, none⟩ := by
  cases workflowResult <;> rfl

/-- Claim C10: for every store, clock and trigger client, the sweep
responds 200 with one `results` entry per due subscription — `"scheduled"`
on a successful trigger, `"failed"` with the error message on a throwing
one — so a trigger failure for one subscription never aborts processing of
the remaining ones. -/
theorem C10_per_subscription_failure_isolation (store : List Subscription)
    (now : Int) (client : Nat → Except String Unit) :
    (processAllSubscriptionReminders store now client).status = 200 ∧
    (processAllSubscriptionReminders store now client).success = true ∧
    (processAllSubscriptionReminders store now client).results =
      (store.filter (dueForReminder now)).map (entryFor client) := by
  refine ⟨rfl, rfl, ?_⟩
  simp [processAllSubscriptionReminders, foldl_processStep]

end SubTracker
